import Mathlib

/-!
Verification development for the AI defect-detection backend.

The embedded modules are:
* `anomaly/anomaly_service.py` — `detect_anomaly`
* `active_learning/active_learning_service.py` — `handle_detection`,
  `label_image`, `check_retrain_trigger`
* `app.py` — the `/api/pipeline` handler (crop/verify loop and aggregation)
* `training/incremental_retrain.py` — `create_incremental_dataset_yaml`,
  `run_incremental_retraining`

External ML adapters (YOLO detector, CNN+LSTM verifier, the autoencoder
network, the trainer) are abstracted as function parameters; file-system
directories are modelled as lists of file names, file contents as lists of
lines, and model-weight files as optional contents. Python floats are
embedded as rationals.
-/

namespace DefectAI

/-- Raw image bytes (`image_bytes` in the Python source). -/
abbrev Img := List Nat

/-! ## anomaly/anomaly_service.py -/

/-- Result dictionary returned by `detect_anomaly`. -/
structure AnomalyResult where
  status : String
  anomaly_score : ℚ
  threshold : ℚ
  message : Option String
deriving DecidableEq

/-- `detect_anomaly(image_bytes)` from `anomaly/anomaly_service.py`.
`model` abstracts the module-level `autoencoder_model` handle: `none` when
`models/autoencoder.h5` is absent or failed to load, otherwise the
reconstruction-error computation (decode, resize, predict, MSE) as a
function from the image to the MSE score. -/
def detect_anomaly (model : Option (Img → ℚ)) (anomaly_threshold : ℚ)
    (image_bytes : Img) : AnomalyResult :=
  match model with
  | none =>
      { status := "PASS"
        anomaly_score := 0
        threshold := anomaly_threshold
        message := some "Autoencoder model not found. Passing by default." }
  | some m =>
      let mse := m image_bytes
      { status := if anomaly_threshold < mse then "ANOMALY" else "NORMAL"
        anomaly_score := mse
        threshold := anomaly_threshold
        message := none }

/-! ## active_learning/active_learning_service.py -/

/-- One bounding box of the labeling request (`box['class_id']`, `box['cx']`,
`box['cy']`, `box['w']`, `box['h']`).  Field values are kept in their
serialized (string) form, since only their placement in the sidecar file
matters here. -/
structure Box where
  class_id : String
  cx : String
  cy : String
  w : String
  h : String
deriving DecidableEq

/-- The durable review store: the files of `review_pending/` (PENDING
items), the image files moved to `newly_labeled/` (LABELED items), and the
sidecar annotation `.txt` files of `newly_labeled/` with their lines. -/
structure ALState where
  pending : List String
  labeled : List String
  sidecars : List (String × List String)
deriving DecidableEq

/-- Python `f"{confidence:.2f}"`: fixed-point rendering of a rational with
two decimals (ties of the underlying binary float are not representable in
`ℚ` exactly at midpoints; rounding is half-up here). -/
def fmt2 (q : ℚ) : String :=
  let n : ℤ := round (q * 100)
  let whole := n / 100
  let frac := (n % 100).natAbs
  toString whole ++ "." ++ (if frac < 10 then "0" else "") ++ toString frac

/-- The pending-file name generated by `handle_detection`:
`f"review_pending_{timestamp}_conf{confidence:.2f}_cls{class_id}.jpg"`. -/
def genName (timestamp : String) (confidence : ℚ) (class_id : ℕ) : String :=
  "review_pending_" ++ timestamp ++ "_conf" ++ fmt2 confidence ++
    "_cls" ++ toString class_id ++ ".jpg"

/-- Status dictionary returned by `handle_detection`. -/
structure HDResult where
  status : String
  file : Option String := none
  reason : Option String := none
deriving DecidableEq

/-- `handle_detection(image_bytes, confidence, class_id)`.  `timestamp`
abstracts `datetime.datetime.now().strftime("%Y%m%d_%H%M%S_%f")`.  Writing
the image with `cv2.imwrite` creates the file, replacing any file of the
same name, so the directory gains the name only when it is new. -/
def handle_detection (s : ALState) (confidence_threshold : ℚ) (confidence : ℚ)
    (timestamp : String) (class_id : ℕ) : HDResult × ALState :=
  if confidence < confidence_threshold then
    let filename := genName timestamp confidence class_id
    ({ status := "FLAGGED", file := some filename,
       reason := some "Low confidence score" },
     { s with pending :=
        if filename ∈ s.pending then s.pending else s.pending ++ [filename] })
  else
    ({ status := "OK" }, s)

/-- The `*.jpg` glob / extension test, over the character list so that it
evaluates in the kernel. -/
def hasSuffix (name suffix : String) : Bool :=
  suffix.data.isSuffixOf name.data

/-- `filename.rsplit(".", 1)[0]`: the name up to its last dot (the whole
name when it has no dot). -/
def stripExt (name : String) : String :=
  if name.data.contains '.' then
    String.mk (((name.data.reverse.dropWhile (fun c => c ≠ '.')).drop 1).reverse)
  else name

/-- One sidecar line:
`f"{box['class_id']} {box['cx']} {box['cy']} {box['w']} {box['h']}"`. -/
def boxLine (b : Box) : String :=
  b.class_id ++ " " ++ b.cx ++ " " ++ b.cy ++ " " ++ b.w ++ " " ++ b.h

/-- The `for box in bounding_boxes: f.write(...)` loop: the lines of the
sidecar file, written in order. -/
def writeLines (boxes : List Box) : List String :=
  boxes.foldl (fun acc b => acc ++ [boxLine b]) []

/-- Outcome of `label_image`: `{"status": "SUCCESS"}` or
`{"error": "File not found"}`.  (The `except` branch for I/O failures of
`shutil.move`/`open` is outside the deterministic file-system model.) -/
inductive LabelResult where
  | success
  | notFound
deriving DecidableEq

/-- `label_image(filename, label_class, bounding_boxes)`.  When the file
exists in `review_pending/` it is moved to `newly_labeled/`; when
`bounding_boxes is not None` a sidecar `.txt` file is written next to it.
`label_class` is accepted but unused by the source. -/
def label_image (s : ALState) (filename : String) (label_class : String)
    (bounding_boxes : Option (List Box)) : LabelResult × ALState :=
  if filename ∈ s.pending then
    let s1 : ALState :=
      { s with pending := s.pending.erase filename
               labeled := s.labeled ++ [filename] }
    match bounding_boxes with
    | none => (.success, s1)
    | some boxes =>
        let label_filename := stripExt filename ++ ".txt"
        (.success,
         { s1 with sidecars := s1.sidecars ++ [(label_filename, writeLines boxes)] })
  else
    (.notFound, s)

/-- `len(list(LABELED_DIR.glob("*.jpg")))`: the `.jpg` files of
`newly_labeled/` (both moved images and sidecars live there; the glob keeps
only the images). -/
def countLabeled (s : ALState) : ℕ :=
  ((s.labeled ++ s.sidecars.map (fun p => p.1)).filter
    (fun n => hasSuffix n ".jpg")).length

/-- `check_retrain_trigger()`: `labeled_count >= TRIGGER_COUNT`.  It is a
pure read: the signature returns no new state. -/
def check_retrain_trigger (trigger_count : ℕ) (s : ALState) : Bool :=
  decide (trigger_count ≤ countLabeled s)

/-! ## app.py — the `/api/pipeline` handler -/

/-- A pixel bounding box `(x1, y1, x2, y2)` (`defect["bbox"]`). -/
structure BBox where
  x1 : ℤ
  y1 : ℤ
  x2 : ℤ
  y2 : ℤ
deriving DecidableEq

/-- One detection candidate dictionary from `predict_defects`.  Only the
fields the pipeline reads are kept. -/
structure Defect where
  bbox : BBox
  cls : String
  confidence : ℚ
deriving DecidableEq

/-- `x1, y1, x2, y2 = max(0, x1), max(0, y1), min(w, x2), min(h, y2)` —
clamping the candidate bbox to the decoded image bounds. -/
def clampBox (w h : ℤ) (b : BBox) : BBox :=
  ⟨max 0 b.x1, max 0 b.y1, min w b.x2, min h b.y2⟩

/-- Width of the numpy slice `img_cv[y1:y2, x1:x2]` (empty when `x2 ≤ x1`). -/
def cropW (b : BBox) : ℤ := max 0 (b.x2 - b.x1)

/-- Height of the numpy slice `img_cv[y1:y2, x1:x2]`. -/
def cropH (b : BBox) : ℤ := max 0 (b.y2 - b.y1)

/-- `crop.size` of the three-channel crop. -/
def cropSize (b : BBox) : ℤ := 3 * cropW b * cropH b

/-- Accumulated outcome of the `for defect in yolo_results["defects"]` loop:
`verified_defects`, `discarded_defects`, and the crops actually sent to
`predict_cnn_lstm` (in order). -/
structure CropResult where
  verified : List Defect
  discarded : List Defect
  calls : List BBox
deriving DecidableEq

/-- The crop-and-verify loop of the pipeline (`app.py` lines 130–152).
`encode_ok` abstracts `cv2.imencode(".jpg", crop)` success and
`cnn_verdict` the verifier's verdict on the crop; both are functions of the
clamped bbox since the decoded image is fixed for the request. -/
def cropAndVerify (w h : ℤ) (encode_ok : BBox → Bool)
    (cnn_verdict : BBox → String) : List Defect → CropResult
  | [] => ⟨[], [], []⟩
  | d :: rest =>
      if cropSize (clampBox w h d.bbox) = 0 then
        cropAndVerify w h encode_ok cnn_verdict rest
      else if encode_ok (clampBox w h d.bbox) = false then
        cropAndVerify w h encode_ok cnn_verdict rest
      else if cnn_verdict (clampBox w h d.bbox) = "DEFECTIVE" then
        ⟨d :: (cropAndVerify w h encode_ok cnn_verdict rest).verified,
         (cropAndVerify w h encode_ok cnn_verdict rest).discarded,
         clampBox w h d.bbox :: (cropAndVerify w h encode_ok cnn_verdict rest).calls⟩
      else
        ⟨(cropAndVerify w h encode_ok cnn_verdict rest).verified,
         d :: (cropAndVerify w h encode_ok cnn_verdict rest).discarded,
         clampBox w h d.bbox :: (cropAndVerify w h encode_ok cnn_verdict rest).calls⟩

/-- The `final_results` dictionary of the pipeline (the fields the claims
are about). -/
structure PipelineResult where
  status : String
  defects : List Defect
  discarded_defects : List Defect
  confidence : ℚ
  anomaly_info : AnomalyResult
  active_learning_flagged : Bool
deriving DecidableEq

/-- The `/api/pipeline` handler on a successfully decoded upload
(`app.py` lines 112–168).  `model`/`anomaly_threshold` parameterize the
anomaly adapter, `image_w`/`image_h` are the decoded image bounds,
`yolo_defects`/`yolo_confidence` the detector adapter's output,
`timestamp` the active-learning file-name clock,
and `encode_ok`/`cnn_verdict` the crop encoding and verifier adapters.
Returns the response together with the review store after the
active-learning side effect. -/
def pipeline (model : Option (Img → ℚ)) (anomaly_threshold : ℚ)
    (confidence_threshold : ℚ) (timestamp : String)
    (image_w image_h : ℤ) (yolo_defects : List Defect) (yolo_confidence : ℚ)
    (encode_ok : BBox → Bool) (cnn_verdict : BBox → String)
    (image_bytes : Img) (s : ALState) : PipelineResult × ALState :=
  let anomaly_result := detect_anomaly model anomaly_threshold image_bytes
  let al := handle_detection s confidence_threshold yolo_confidence timestamp 0
  let r := cropAndVerify image_w image_h encode_ok cnn_verdict yolo_defects
  let status :=
    if 0 < r.verified.length ∨ anomaly_result.status = "ANOMALY"
    then "FAIL" else "PASS"
  ({ status := status
     defects := r.verified
     discarded_defects := r.discarded
     confidence := yolo_confidence
     anomaly_info := anomaly_result
     active_learning_flagged := al.1.status == "FLAGGED" },
   al.2)

/-! ## training/incremental_retrain.py -/

/-- The durable state touched by the incremental retrain: the files of
`newly_labeled/`, the production weights `models/best.pt` (contents
abstracted as a version number), the backup `models/best_backup.pt`, the
transient manifest `incremental_dataset.yaml`, and the archive
`consumed_labeled_data/`. -/
structure RetrainFS where
  labeled_files : List String
  best_pt : Option ℕ
  backup_pt : Option ℕ
  incremental_yaml : Bool
  consumed_files : List String
deriving DecidableEq

/-- `create_incremental_dataset_yaml()`: writes (or overwrites)
`incremental_dataset.yaml`. -/
def create_incremental_dataset_yaml (fs : RetrainFS) : RetrainFS :=
  { fs with incremental_yaml := true }

/-- `run_incremental_retraining()`.  `train_output` abstracts the contents
of `runs/detect/incremental_retrain/weights/best.pt` once `model.train`
returns (`none` when no such weights exist afterwards);
`added_during_run` are the files that land in `newly_labeled/` while the
long training call runs — the final cleanup loop iterates the directory
afresh (`NEWLY_LABELED_DIR.iterdir()`), so it sees them. -/
def run_incremental_retraining (fs : RetrainFS) (train_output : Option ℕ)
    (added_during_run : List String) : Bool × RetrainFS :=
  let labeled_images := fs.labeled_files.filter (fun f => hasSuffix f ".jpg")
  if labeled_images.isEmpty then
    (false, fs)
  else
    let fs1 := create_incremental_dataset_yaml fs
    match fs1.best_pt with
    | none => (false, fs1)
    | some cur =>
        let fs2 := { fs1 with
          labeled_files := fs1.labeled_files ++ added_during_run }
        match train_output with
        | some w =>
            let fs3 := { fs2 with backup_pt := some cur, best_pt := some w }
            (true,
             { fs3 with
                labeled_files := []
                consumed_files := fs3.consumed_files ++ fs3.labeled_files })
        | none => (true, fs2)

/-! ## Helper lemmas -/

theorem cropAndVerify_verified_spec (w h : ℤ) (eok : BBox → Bool)
    (vd : BBox → String) (l : List Defect) (d : Defect)
    (hd : d ∈ (cropAndVerify w h eok vd l).verified) :
    cropSize (clampBox w h d.bbox) ≠ 0 ∧ eok (clampBox w h d.bbox) = true := by
  induction l with
  | nil => simp [cropAndVerify] at hd
  | cons a t ih =>
      simp only [cropAndVerify] at hd
      by_cases h1 : cropSize (clampBox w h a.bbox) = 0
      · rw [if_pos h1] at hd; exact ih hd
      · rw [if_neg h1] at hd
        by_cases h2 : eok (clampBox w h a.bbox) = false
        · rw [if_pos h2] at hd; exact ih hd
        · rw [if_neg h2] at hd
          by_cases h3 : vd (clampBox w h a.bbox) = "DEFECTIVE"
          · rw [if_pos h3] at hd
            rcases List.mem_cons.mp hd with rfl | hd2
            · refine ⟨h1, ?_⟩
              revert h2; cases eok (clampBox w h d.bbox) <;> simp
            · exact ih hd2
          · rw [if_neg h3] at hd; exact ih hd

theorem cropAndVerify_discarded_spec (w h : ℤ) (eok : BBox → Bool)
    (vd : BBox → String) (l : List Defect) (d : Defect)
    (hd : d ∈ (cropAndVerify w h eok vd l).discarded) :
    cropSize (clampBox w h d.bbox) ≠ 0 ∧ eok (clampBox w h d.bbox) = true := by
  induction l with
  | nil => simp [cropAndVerify] at hd
  | cons a t ih =>
      simp only [cropAndVerify] at hd
      by_cases h1 : cropSize (clampBox w h a.bbox) = 0
      · rw [if_pos h1] at hd; exact ih hd
      · rw [if_neg h1] at hd
        by_cases h2 : eok (clampBox w h a.bbox) = false
        · rw [if_pos h2] at hd; exact ih hd
        · rw [if_neg h2] at hd
          by_cases h3 : vd (clampBox w h a.bbox) = "DEFECTIVE"
          · rw [if_pos h3] at hd; exact ih hd
          · rw [if_neg h3] at hd
            rcases List.mem_cons.mp hd with rfl | hd2
            · refine ⟨h1, ?_⟩
              revert h2; cases eok (clampBox w h d.bbox) <;> simp
            · exact ih hd2

theorem cropAndVerify_calls_spec (w h : ℤ) (eok : BBox → Bool)
    (vd : BBox → String) (l : List Defect) (b : BBox)
    (hb : b ∈ (cropAndVerify w h eok vd l).calls) :
    cropSize b ≠ 0 ∧ eok b = true := by
  induction l with
  | nil => simp [cropAndVerify] at hb
  | cons a t ih =>
      simp only [cropAndVerify] at hb
      by_cases h1 : cropSize (clampBox w h a.bbox) = 0
      · rw [if_pos h1] at hb; exact ih hb
      · rw [if_neg h1] at hb
        by_cases h2 : eok (clampBox w h a.bbox) = false
        · rw [if_pos h2] at hb; exact ih hb
        · rw [if_neg h2] at hb
          have hok : eok (clampBox w h a.bbox) = true := by
            revert h2; cases eok (clampBox w h a.bbox) <;> simp
          by_cases h3 : vd (clampBox w h a.bbox) = "DEFECTIVE"
          · rw [if_pos h3] at hb
            rcases List.mem_cons.mp hb with rfl | hb2
            · exact ⟨h1, hok⟩
            · exact ih hb2
          · rw [if_neg h3] at hb
            rcases List.mem_cons.mp hb with rfl | hb2
            · exact ⟨h1, hok⟩
            · exact ih hb2

/-! ## Claim theorems -/

/-- C1: for every inspection request processed by the pipeline, the
aggregate status is `FAIL` iff the confirmed-defects list is non-empty or
the anomaly verdict status equals `ANOMALY`; otherwise it is `PASS` — for
every combination of candidates and anomaly states. -/
theorem pipeline_status_fail_iff (model : Option (Img → ℚ))
    (ath cth : ℚ) (ts : String) (w h : ℤ) (defs : List Defect) (conf : ℚ)
    (eok : BBox → Bool) (vd : BBox → String) (img : Img) (s : ALState) :
    ((pipeline model ath cth ts w h defs conf eok vd img s).1.status = "FAIL" ↔
      (pipeline model ath cth ts w h defs conf eok vd img s).1.defects ≠ [] ∨
      (pipeline model ath cth ts w h defs conf eok vd img s).1.anomaly_info.status
        = "ANOMALY") ∧
    ((pipeline model ath cth ts w h defs conf eok vd img s).1.status = "PASS" ↔
      ¬((pipeline model ath cth ts w h defs conf eok vd img s).1.defects ≠ [] ∨
        (pipeline model ath cth ts w h defs conf eok vd img s).1.anomaly_info.status
          = "ANOMALY")) := by
  simp only [pipeline]
  by_cases hc : 0 < (cropAndVerify w h eok vd defs).verified.length ∨
      (detect_anomaly model ath img).status = "ANOMALY"
  · rw [if_pos hc]
    have hc2 : (cropAndVerify w h eok vd defs).verified ≠ [] ∨
        (detect_anomaly model ath img).status = "ANOMALY" := by
      rcases hc with hc | hc
      · exact Or.inl (List.length_pos.mp hc)
      · exact Or.inr hc
    constructor
    · simpa using hc2
    · constructor
      · intro hPF; exact absurd hPF (by decide)
      · intro hn; exact absurd hc2 hn
  · rw [if_neg hc]
    have hc2 : ¬((cropAndVerify w h eok vd defs).verified ≠ [] ∨
        (detect_anomaly model ath img).status = "ANOMALY") := by
      intro hor
      apply hc
      rcases hor with hor | hor
      · exact Or.inl (List.length_pos.mpr hor)
      · exact Or.inr hor
    constructor
    · constructor
      · intro hPF; exact absurd hPF (by decide)
      · intro hor; exact absurd hor hc2
    · simpa using hc2

/-- C8: every candidate whose bbox, clamped to the image bounds, has zero
width or zero height is excluded from both the confirmed and the
discarded lists of the pipeline result, whatever the verifier and the
encoder do. -/
theorem pipeline_zero_area_excluded (model : Option (Img → ℚ))
    (ath cth : ℚ) (ts : String) (w h : ℤ) (defs : List Defect) (conf : ℚ)
    (eok : BBox → Bool) (vd : BBox → String) (img : Img) (s : ALState)
    (d : Defect) (hd : d ∈ defs)
    (hz : cropW (clampBox w h d.bbox) = 0 ∨ cropH (clampBox w h d.bbox) = 0) :
    d ∉ (pipeline model ath cth ts w h defs conf eok vd img s).1.defects ∧
    d ∉ (pipeline model ath cth ts w h defs conf eok vd img s).1.discarded_defects
    := by
  have hsz : cropSize (clampBox w h d.bbox) = 0 := by
    rcases hz with hz | hz <;> simp [cropSize, hz]
  constructor
  · intro hmem
    exact (cropAndVerify_verified_spec w h eok vd defs d hmem).1 hsz
  · intro hmem
    exact (cropAndVerify_discarded_spec w h eok vd defs d hmem).1 hsz

/-- Witness for C8: a candidate at (200,200)–(300,300) in a 100×100 image
clamps to zero width and lands in neither list, even for a verifier that
answers DEFECTIVE on everything. -/
theorem pipeline_zero_area_excluded_witness :
    (⟨⟨200, 200, 300, 300⟩, "crack", 1/2⟩ : Defect) ∉
      (pipeline none 1 0 "t" 100 100 [⟨⟨200, 200, 300, 300⟩, "crack", 1/2⟩] 1
        (fun _ => true) (fun _ => "DEFECTIVE") [] ⟨[], [], []⟩).1.defects ∧
    (⟨⟨200, 200, 300, 300⟩, "crack", 1/2⟩ : Defect) ∉
      (pipeline none 1 0 "t" 100 100 [⟨⟨200, 200, 300, 300⟩, "crack", 1/2⟩] 1
        (fun _ => true) (fun _ => "DEFECTIVE") [] ⟨[], [], []⟩).1.discarded_defects
    :=
  pipeline_zero_area_excluded none 1 0 "t" 100 100
    [⟨⟨200, 200, 300, 300⟩, "crack", 1/2⟩] 1
    (fun _ => true) (fun _ => "DEFECTIVE") [] ⟨[], [], []⟩
    ⟨⟨200, 200, 300, 300⟩, "crack", 1/2⟩ (by simp) (by decide)

/-- C10: a candidate whose clamped crop fails to encode as a JPEG is
silently dropped: the verifier is never invoked on that crop, the
candidate lands in neither the confirmed nor the discarded list, and the
pipeline still produces an ordinary PASS/FAIL result. -/
theorem pipeline_encode_failure_dropped (model : Option (Img → ℚ))
    (ath cth : ℚ) (ts : String) (w h : ℤ) (defs : List Defect) (conf : ℚ)
    (eok : BBox → Bool) (vd : BBox → String) (img : Img) (s : ALState)
    (d : Defect) (hd : d ∈ defs)
    (he : eok (clampBox w h d.bbox) = false) :
    d ∉ (pipeline model ath cth ts w h defs conf eok vd img s).1.defects ∧
    d ∉ (pipeline model ath cth ts w h defs conf eok vd img s).1.discarded_defects ∧
    clampBox w h d.bbox ∉ (cropAndVerify w h eok vd defs).calls ∧
    ((pipeline model ath cth ts w h defs conf eok vd img s).1.status = "PASS" ∨
     (pipeline model ath cth ts w h defs conf eok vd img s).1.status = "FAIL") := by
  refine ⟨?_, ?_, ?_, ?_⟩
  · intro hmem
    have hspec := cropAndVerify_verified_spec w h eok vd defs d hmem
    rw [he] at hspec
    exact absurd hspec.2 (by decide)
  · intro hmem
    have hspec := cropAndVerify_discarded_spec w h eok vd defs d hmem
    rw [he] at hspec
    exact absurd hspec.2 (by decide)
  · intro hmem
    have hspec := cropAndVerify_calls_spec w h eok vd defs (clampBox w h d.bbox) hmem
    rw [he] at hspec
    exact absurd hspec.2 (by decide)
  · simp only [pipeline]
    by_cases hc : 0 < (cropAndVerify w h eok vd defs).verified.length ∨
        (detect_anomaly model ath img).status = "ANOMALY"
    · rw [if_pos hc]; exact Or.inr rfl
    · rw [if_neg hc]; exact Or.inl rfl

/-- Witness for C10: a well-inside candidate whose crop never encodes is
dropped from both lists and from the verifier call list, and the result is
an ordinary PASS. -/
theorem pipeline_encode_failure_dropped_witness :
    (⟨⟨10, 10, 50, 50⟩, "crack", 1/2⟩ : Defect) ∉
      (pipeline none 1 0 "t" 100 100 [⟨⟨10, 10, 50, 50⟩, "crack", 1/2⟩] 1
        (fun _ => false) (fun _ => "DEFECTIVE") [] ⟨[], [], []⟩).1.defects ∧
    (⟨⟨10, 10, 50, 50⟩, "crack", 1/2⟩ : Defect) ∉
      (pipeline none 1 0 "t" 100 100 [⟨⟨10, 10, 50, 50⟩, "crack", 1/2⟩] 1
        (fun _ => false) (fun _ => "DEFECTIVE") [] ⟨[], [], []⟩).1.discarded_defects ∧
    clampBox 100 100 ⟨10, 10, 50, 50⟩ ∉
      (cropAndVerify 100 100 (fun _ => false) (fun _ => "DEFECTIVE")
        [⟨⟨10, 10, 50, 50⟩, "crack", 1/2⟩]).calls ∧
    ((pipeline none 1 0 "t" 100 100 [⟨⟨10, 10, 50, 50⟩, "crack", 1/2⟩] 1
        (fun _ => false) (fun _ => "DEFECTIVE") [] ⟨[], [], []⟩).1.status = "PASS" ∨
     (pipeline none 1 0 "t" 100 100 [⟨⟨10, 10, 50, 50⟩, "crack", 1/2⟩] 1
        (fun _ => false) (fun _ => "DEFECTIVE") [] ⟨[], [], []⟩).1.status = "FAIL")
    :=
  pipeline_encode_failure_dropped none 1 0 "t" 100 100
    [⟨⟨10, 10, 50, 50⟩, "crack", 1/2⟩] 1
    (fun _ => false) (fun _ => "DEFECTIVE") [] ⟨[], [], []⟩
    ⟨⟨10, 10, 50, 50⟩, "crack", 1/2⟩ (by simp) rfl

/-- C2 counterexample: with no anomaly model loaded, `detect_anomaly`
returns status `"PASS"`, not the claimed `"SKIPPED"` — the code never
produces a SKIPPED status. -/
theorem detect_anomaly_no_model_not_skipped :
    (detect_anomaly none 1 []).status = "PASS" ∧
    ¬(detect_anomaly none 1 []).status = "SKIPPED" := by
  constructor
  · rfl
  · decide

/-- C2 amended: when no anomaly model is loaded, the anomaly check returns
a verdict with status `"PASS"` and an explanatory message, and the
aggregation step treats that status as non-anomalous: the pipeline then
fails iff a confirmed defect exists. -/
theorem detect_anomaly_no_model_pass (ath cth : ℚ) (ts : String) (w h : ℤ)
    (defs : List Defect) (conf : ℚ) (eok : BBox → Bool) (vd : BBox → String)
    (img : Img) (s : ALState) :
    (pipeline none ath cth ts w h defs conf eok vd img s).1.anomaly_info.status
      = "PASS" ∧
    (pipeline none ath cth ts w h defs conf eok vd img s).1.anomaly_info.message
      = some "Autoencoder model not found. Passing by default." ∧
    ((pipeline none ath cth ts w h defs conf eok vd img s).1.status = "FAIL" ↔
      (pipeline none ath cth ts w h defs conf eok vd img s).1.defects ≠ []) := by
  refine ⟨rfl, rfl, ?_⟩
  simp only [pipeline, detect_anomaly]
  by_cases hv : (cropAndVerify w h eok vd defs).verified = []
  · simp [hv]
  · have hp : 0 < (cropAndVerify w h eok vd defs).verified.length :=
      List.length_pos.mpr hv
    simp [hv, hp]

/-- C5: labeling an id that is absent from the pending area fails NotFound
and leaves the review store completely unchanged; labeling an existing
PENDING id succeeds, and a second `label` call on the same id fails
NotFound and changes nothing.  (A directory holds no duplicate names,
whence the `Nodup` hypothesis.) -/
theorem label_image_notfound_and_once (s : ALState) (f c : String)
    (b : Option (List Box)) (hnd : s.pending.Nodup) :
    (f ∉ s.pending → label_image s f c b = (.notFound, s)) ∧
    (f ∈ s.pending →
      (label_image s f c b).1 = .success ∧
      label_image (label_image s f c b).2 f c b =
        (.notFound, (label_image s f c b).2)) := by
  have hnf : ∀ t : ALState, f ∉ t.pending →
      label_image t f c b = (.notFound, t) := by
    intro t hft
    simp only [label_image]
    rw [if_neg hft]
  have hpend : ∀ t : ALState, f ∈ t.pending →
      (label_image t f c b).1 = .success ∧
      (label_image t f c b).2.pending = t.pending.erase f := by
    intro t hft
    cases b with
    | none =>
        simp only [label_image]
        rw [if_pos hft]
        exact ⟨rfl, rfl⟩
    | some boxes =>
        simp only [label_image]
        rw [if_pos hft]
        exact ⟨rfl, rfl⟩
  refine ⟨hnf s, fun hf => ⟨(hpend s hf).1, ?_⟩⟩
  have hf2 : f ∉ (label_image s f c b).2.pending := by
    rw [(hpend s hf).2]
    exact hnd.not_mem_erase
  exact hnf _ hf2

/-- Witness for C5: labeling the only pending item `a.jpg` succeeds, and
the second `label` call on the same id fails NotFound with the store
untouched. -/
theorem label_image_notfound_and_once_witness :
    (label_image ⟨["a.jpg"], [], []⟩ "a.jpg" "0" none).1 = .success ∧
    label_image (label_image ⟨["a.jpg"], [], []⟩ "a.jpg" "0" none).2
        "a.jpg" "0" none =
      (.notFound, (label_image ⟨["a.jpg"], [], []⟩ "a.jpg" "0" none).2) :=
  (label_image_notfound_and_once ⟨["a.jpg"], [], []⟩ "a.jpg" "0" none
    (by simp)).2 (by simp)

/-- C6 counterexample: labeling with the empty boxes list still creates a
sidecar annotation file (the source guards only on `is not None`), so the
sidecar is NOT written iff the boxes list is non-empty: with
`boxes = some []` the store gains the (empty) sidecar `a.txt` although the
list has no box. -/
theorem label_image_empty_boxes_writes_sidecar :
    ¬(((label_image ⟨["a.jpg"], [], []⟩ "a.jpg" "0" (some [])).2.sidecars ≠
        (⟨["a.jpg"], [], []⟩ : ALState).sidecars) ↔
      ([] : List Box) ≠ []) := by
  decide

/-- C6 amended: during labeling of a pending id, a sidecar annotation file
is written iff the supplied boxes argument is present (`is not None`) — an
empty list yields an empty sidecar file — and when written it carries
exactly one line per box, in the order given, each line being
`class_id cx cy w h` space-separated (`boxLine`). -/
theorem label_image_sidecar_spec (s : ALState) (f c : String)
    (hf : f ∈ s.pending) :
    (∀ boxes : List Box,
      (label_image s f c (some boxes)).2.sidecars =
        s.sidecars ++ [(stripExt f ++ ".txt", boxes.map boxLine)]) ∧
    (label_image s f c none).2.sidecars = s.sidecars := by
  have hw : ∀ boxes : List Box, writeLines boxes = boxes.map boxLine := by
    intro boxes
    have haux : ∀ (init : List String) (bs : List Box),
        bs.foldl (fun acc b => acc ++ [boxLine b]) init = init ++ bs.map boxLine := by
      intro init bs
      induction bs generalizing init with
      | nil => simp
      | cons b t ih => simp [ih]
    simpa [writeLines] using haux [] boxes
  constructor
  · intro boxes
    simp only [label_image]
    rw [if_pos hf, hw]
  · simp only [label_image]
    rw [if_pos hf]

/-- Witness for C6 (amended): labeling `a.jpg` with one full-image box
writes the sidecar `a.txt` holding exactly the line `1 0.5 0.5 1.0 1.0`. -/
theorem label_image_sidecar_spec_witness :
    (label_image ⟨["a.jpg"], [], []⟩ "a.jpg" "0"
        (some [⟨"1", "0.5", "0.5", "1.0", "1.0"⟩])).2.sidecars =
      [("a.txt", ["1 0.5 0.5 1.0 1.0"])] := by
  rw [(label_image_sidecar_spec ⟨["a.jpg"], [], []⟩ "a.jpg" "0"
    (by simp)).1 [⟨"1", "0.5", "0.5", "1.0", "1.0"⟩]]
  decide

/-- C7: a detector confidence strictly below the threshold creates exactly
one new PENDING item and returns FLAGGED with the generated name; a
confidence at or above the threshold returns OK with no side effect.  The
freshness hypothesis reflects distinct generation timestamps (the
source's timestamp-named files; collisions are its known open risk). -/
theorem handle_detection_gate (s : ALState) (th conf : ℚ) (ts : String)
    (cid : ℕ) (hfresh : genName ts conf cid ∉ s.pending) :
    (conf < th →
      handle_detection s th conf ts cid =
        ({ status := "FLAGGED", file := some (genName ts conf cid),
           reason := some "Low confidence score" },
         { s with pending := s.pending ++ [genName ts conf cid] }) ∧
      (handle_detection s th conf ts cid).2.pending.length
        = s.pending.length + 1) ∧
    (th ≤ conf → handle_detection s th conf ts cid = ({ status := "OK" }, s))
    := by
  constructor
  · intro hlt
    have he : handle_detection s th conf ts cid =
        ({ status := "FLAGGED", file := some (genName ts conf cid),
           reason := some "Low confidence score" },
         { s with pending := s.pending ++ [genName ts conf cid] }) := by
      simp only [handle_detection]
      rw [if_pos hlt, if_neg hfresh]
    refine ⟨he, ?_⟩
    rw [he]
    simp
  · intro hge
    simp only [handle_detection]
    rw [if_neg (not_lt.mpr hge)]

/-- Witness for C7: confidence 0.3 against threshold 0.5 on an empty store
flags the image and creates exactly one pending item. -/
theorem handle_detection_gate_witness :
    handle_detection ⟨[], [], []⟩ (1/2) (3/10) "20250101_000000_000000" 0 =
      ({ status := "FLAGGED",
         file := some (genName "20250101_000000_000000" (3/10) 0),
         reason := some "Low confidence score" },
       ⟨[genName "20250101_000000_000000" (3/10) 0], [], []⟩) ∧
    (handle_detection ⟨[], [], []⟩ (1/2) (3/10)
        "20250101_000000_000000" 0).2.pending.length = 1 := by
  have h := (handle_detection_gate ⟨[], [], []⟩ (1/2) (3/10)
    "20250101_000000_000000" 0 (by simp)).1 (by norm_num)
  exact ⟨h.1, h.2⟩

/-- C9: `check_retrain_trigger` returns true iff the labeled count is at
least the threshold, including the boundary case of exact equality; its
signature returns no new store, so it has no side effect by
construction. -/
theorem check_retrain_trigger_iff (trigger_count : ℕ) (s : ALState) :
    (check_retrain_trigger trigger_count s = true ↔
      trigger_count ≤ countLabeled s) ∧
    (countLabeled s = trigger_count →
      check_retrain_trigger trigger_count s = true) := by
  constructor
  · simp [check_retrain_trigger]
  · intro h
    simp [check_retrain_trigger, h]

/-- Witness for C9: one labeled image against threshold 1 (the boundary
case) fires the trigger. -/
theorem check_retrain_trigger_iff_witness :
    check_retrain_trigger 1 ⟨[], ["a.jpg"], []⟩ = true :=
  (check_retrain_trigger_iff 1 ⟨[], ["a.jpg"], []⟩).2 (by decide)

/-- C3 counterexample: a successful retrain run starting from the single
labeled item `a.jpg` also consumes `b.jpg`, a file that only appeared in
the labeled area during the training run — the cleanup loop re-reads the
directory instead of using the start-of-run snapshot. -/
theorem retrain_consumes_concurrent_file :
    "b.jpg" ∈ (run_incremental_retraining ⟨["a.jpg"], some 0, none, false, []⟩
        (some 1) ["b.jpg"]).2.consumed_files ∧
    "b.jpg" ∉ (⟨["a.jpg"], some 0, none, false, []⟩ :
        RetrainFS).labeled_files := by
  decide

/-- C3 amended: a successful incremental retrain run moves every file
present in the labeled area at consumption time — the items that existed
at the start of the run and any added during the training run — into the
consumed archive, leaving the labeled area empty. -/
theorem retrain_success_consumes_all (fs : RetrainFS) (cur nw : ℕ)
    (added : List String)
    (hl : (fs.labeled_files.filter (fun f => hasSuffix f ".jpg")).isEmpty
      = false)
    (hb : fs.best_pt = some cur) :
    run_incremental_retraining fs (some nw) added =
      (true, ⟨[], some nw, some cur, true,
              fs.consumed_files ++ (fs.labeled_files ++ added)⟩) := by
  simp only [run_incremental_retraining, create_incremental_dataset_yaml, hl, hb]
  rfl

/-- Witness for C3 (amended): the run over labeled file `a.jpg` with
`b.jpg` arriving mid-run archives both and empties the labeled area. -/
theorem retrain_success_consumes_all_witness :
    run_incremental_retraining ⟨["a.jpg"], some 5, none, false, ["old.jpg"]⟩
        (some 7) ["b.jpg"] =
      (true, ⟨[], some 7, some 5, true,
              ["old.jpg"] ++ (["a.jpg"] ++ ["b.jpg"])⟩) :=
  retrain_success_consumes_all ⟨["a.jpg"], some 5, none, false, ["old.jpg"]⟩
    5 7 ["b.jpg"] (by decide) rfl

/-- C4 counterexample: with one labeled image but no production model, the
retrain aborts — yet `incremental_dataset.yaml` has already been written
(`false` becomes `true`), so the abort is not free of file-system side
effects. -/
theorem retrain_missing_model_writes_manifest :
    run_incremental_retraining ⟨["a.jpg"], none, none, false, []⟩ none [] =
      (false, ⟨["a.jpg"], none, none, true, []⟩) := by
  decide

/-- C4 amended: when no labeled image exists the retrain aborts with no
side effect at all (the state is returned unchanged); when labeled images
exist but the production model artifact is missing, the retrain aborts
touching neither weights, nor labeled files, nor the archive — but only
after writing the transient `incremental_dataset.yaml` manifest, its sole
side effect. -/
theorem retrain_precondition_effects (fs : RetrainFS) (t : Option ℕ)
    (a : List String) :
    ((fs.labeled_files.filter (fun f => hasSuffix f ".jpg")).isEmpty = true →
      run_incremental_retraining fs t a = (false, fs)) ∧
    ((fs.labeled_files.filter (fun f => hasSuffix f ".jpg")).isEmpty = false →
      fs.best_pt = none →
      run_incremental_retraining fs t a =
        (false, { fs with incremental_yaml := true })) := by
  constructor
  · intro he
    simp [run_incremental_retraining, he]
  · intro he hb
    simp [run_incremental_retraining, create_incremental_dataset_yaml, he, hb]

/-- Witness for C4 (amended): an empty labeled area aborts with the state
unchanged; a labeled image without production weights aborts having
written only the manifest. -/
theorem retrain_precondition_effects_witness :
    run_incremental_retraining ⟨[], none, none, false, []⟩ none [] =
      (false, ⟨[], none, none, false, []⟩) ∧
    run_incremental_retraining ⟨["a.jpg"], none, none, false, []⟩ none [] =
      (false, { (⟨["a.jpg"], none, none, false, []⟩ : RetrainFS) with
                  incremental_yaml := true }) := by
  constructor
  · exact (retrain_precondition_effects ⟨[], none, none, false, []⟩
      none []).1 (by decide)
  · exact (retrain_precondition_effects ⟨["a.jpg"], none, none, false, []⟩
      none []).2 (by decide) rfl

end DefectAI
